import Mathlib

/-!
Verification of the MAB quiz backend (mabquiz).

This file shallowly embeds the parts of the backend that the verified
properties talk about:

* the MAB arm data model (`src/backend/app/models/mab_state.py`),
* the two-way delta sync endpoint (`src/backend/app/routers/sync.py`,
  `sync_mab_state`),
* the difficulty calculation service
  (`src/backend/app/services/difficulty_calculator.py`).

Conventions of the embedding:

* timestamps are epoch milliseconds modelled as `Int`.  The Python code
  converts them with `datetime.fromtimestamp(ms / 1000)`; for the epoch-ms
  magnitudes involved this conversion is strictly monotone and injective,
  so comparisons on the converted values coincide with comparisons on the
  raw `Int` values;
* SQL float / Python float arithmetic is modelled over `ℚ`, except for
  `math.sqrt` in the Wilson confidence interval, which is modelled by
  `Real.sqrt` over `ℝ`;
* the database is modelled as in-memory lists of rows; a sync call is a
  function from the current database and request to a result
  (`Except`-style, because parts of the endpoint raise) together with the
  database state after the call.
-/

/- ======================== MAB arm data model ======================== -/

/-- A question-arm snapshot submitted by the client
(`QuestionArmSync` pydantic model, sync.py lines 21-32). -/
structure QuestionArmSync where
  question_id : String
  attempts : Int
  successes : Int
  failures : Int
  total_response_time_ms : Int
  alpha : ℚ
  beta : ℚ
  user_confidence : ℚ
  last_attempted : Option Int
  created_at : Int
  updated_at : Int
deriving DecidableEq

/-- A topic-arm snapshot submitted by the client
(`TopicArmSync` pydantic model, sync.py lines 35-47). -/
structure TopicArmSync where
  topic_key : String
  topic : String
  knowledge_type : String
  course : String
  attempts : Int
  successes : Int
  failures : Int
  total_response_time_ms : Int
  alpha : ℚ
  beta : ℚ
  created_at : Int
  updated_at : Int
deriving DecidableEq

/-- A stored `user_mab_question_arms` row (`UserMABQuestionArm`,
mab_state.py lines 10-42).  The surrogate `id` column is omitted; the
business key is the unique index on `(user_id, question_id)`.
`difficulty` is `Option String` because, although the column is declared
NOT NULL (mab_state.py line 17), the sync insert path never assigns it,
which at the Python object level leaves it `None`; flushing such a row
violates the constraint, so it can never be committed (modelled in
`sync_mab_state`).  Nullable datetime columns are `Option Int`. -/
structure UserMABQuestionArm where
  user_id : String
  question_id : String
  difficulty : Option String
  attempts : Int
  successes : Int
  failures : Int
  total_response_time_ms : Int
  alpha : ℚ
  beta : ℚ
  user_confidence : ℚ
  last_attempted : Option Int
  created_at : Int
  updated_at : Option Int
deriving DecidableEq

/-- A stored `user_mab_topic_arms` row (`UserMABTopicArm`, mab_state.py
lines 77-107).  Note: this model has a `last_updated` column and NO
`updated_at` column — that mismatch with sync.py is load-bearing below. -/
structure UserMABTopicArm where
  user_id : String
  topic_key : String
  course : String
  topic : String
  knowledge_type : String
  attempts : Int
  successes : Int
  failures : Int
  total_response_time_ms : Int
  alpha : ℚ
  beta : ℚ
  last_updated : Option Int
  created_at : Option Int
deriving DecidableEq

/-- Server-side database state relevant to the sync endpoint. -/
structure MABDatabase where
  questionArms : List UserMABQuestionArm
  topicArms : List UserMABTopicArm
deriving DecidableEq

/-- Python `round(q, 3)`: modelled as rounding to the nearest multiple of
1/1000 (Python rounds ties on binary floats to even; no verified property
depends on the value of this field, only on it being a function of the
row). -/
def round3 (q : ℚ) : ℚ := (round (q * 1000) : ℤ) / 1000

/-- The dictionary returned for a question arm
(`UserMABQuestionArm.to_dict`, mab_state.py lines 44-59).  `last_attempted`
is an ISO-format string in Python; the formatting is injective, so it is
modelled by the underlying timestamp. -/
structure QuestionArmDict where
  user_id : String
  question_id : String
  difficulty : Option String
  attempts : Int
  successes : Int
  failures : Int
  total_response_time_ms : Int
  alpha : ℚ
  beta : ℚ
  user_confidence : ℚ
  last_attempted : Option Int
  success_rate : ℚ
deriving DecidableEq

/-- `UserMABQuestionArm.to_dict` (mab_state.py lines 44-59). -/
def UserMABQuestionArm.to_dict (a : UserMABQuestionArm) : QuestionArmDict :=
  { user_id := a.user_id
    question_id := a.question_id
    difficulty := a.difficulty
    attempts := a.attempts
    successes := a.successes
    failures := a.failures
    total_response_time_ms := a.total_response_time_ms
    alpha := a.alpha
    beta := a.beta
    user_confidence := a.user_confidence
    last_attempted := a.last_attempted
    success_rate := if a.attempts > 0 then round3 ((a.successes : ℚ) / (a.attempts : ℚ)) else 0 }

/-- The dictionary returned for a topic arm (`UserMABTopicArm.to_dict`,
mab_state.py lines 109-124). -/
structure TopicArmDict where
  user_id : String
  topic_key : String
  course : String
  topic : String
  knowledge_type : String
  attempts : Int
  successes : Int
  failures : Int
  total_response_time_ms : Int
  alpha : ℚ
  beta : ℚ
  last_updated : Option Int
deriving DecidableEq

/-- `UserMABTopicArm.to_dict` (mab_state.py lines 109-124). -/
def UserMABTopicArm.to_dict (a : UserMABTopicArm) : TopicArmDict :=
  { user_id := a.user_id
    topic_key := a.topic_key
    course := a.course
    topic := a.topic
    knowledge_type := a.knowledge_type
    attempts := a.attempts
    successes := a.successes
    failures := a.failures
    total_response_time_ms := a.total_response_time_ms
    alpha := a.alpha
    beta := a.beta
    last_updated := a.last_updated }

/-- `UserMABQuestionArm.initialize_prior` (mab_state.py lines 61-74),
returning the `(alpha, beta)` pair the method assigns. -/
def initialize_prior (difficulty : String) : ℚ × ℚ :=
  if difficulty = "beginner" then (7, 3)
  else if difficulty = "intermediate" then (5, 5)
  else if difficulty = "advanced" then (3, 7)
  else (5, 5)

/- ======================== Delta sync endpoint ======================== -/

/-- `SyncRequest` (sync.py lines 50-53). -/
structure SyncRequest where
  last_sync_time : Int
  question_arms : List QuestionArmSync
  topic_arms : List TopicArmSync
deriving DecidableEq

/-- `SyncResponse` (sync.py lines 56-60); the arm lists carry the
`to_dict` images of the returned rows. -/
structure SyncResponse where
  server_time : Int
  question_arms : List QuestionArmDict
  topic_arms : List TopicArmDict
  conflicts_resolved : Int
deriving DecidableEq

/-- Python truthiness applied to an optional epoch-ms value:
`datetime.fromtimestamp(x / 1000) if x else None` maps both `None` and the
(falsy) timestamp `0` to `None` (sync.py lines 109 and 124). -/
def pyTruthyMs (x : Option Int) : Option Int :=
  match x with
  | none => none
  | some t => if t = 0 then none else some t

/-- Server-side lookup of a question arm by its unique
`(user_id, question_id)` key (sync.py lines 87-95). -/
def findQuestionArm (arms : List UserMABQuestionArm) (userId qid : String) :
    Option UserMABQuestionArm :=
  arms.find? (fun a => a.user_id == userId && a.question_id == qid)

/-- Field assignments for a winning question-arm snapshot (sync.py lines
102-110).  Fields not assigned there — `user_id`, `question_id`,
`difficulty`, `created_at` — keep their stored values. -/
def overwriteQuestionArm (existing : UserMABQuestionArm) (arm : QuestionArmSync) :
    UserMABQuestionArm :=
  { existing with
    attempts := arm.attempts
    successes := arm.successes
    failures := arm.failures
    total_response_time_ms := arm.total_response_time_ms
    alpha := arm.alpha
    beta := arm.beta
    user_confidence := arm.user_confidence
    last_attempted := pyTruthyMs arm.last_attempted
    updated_at := some arm.updated_at }

/-- Conflict resolution for a question arm that already exists (sync.py
lines 99-111): last write wins on `updated_at`.  Returns the resulting
row and the amount added to `conflicts_resolved` (1 on overwrite,
0 on discard). -/
def mergeQuestionArm (existing : UserMABQuestionArm) (arm : QuestionArmSync) :
    UserMABQuestionArm × Nat :=
  match existing.updated_at with
  | none => (overwriteQuestionArm existing arm, 1)
  | some t =>
    if t < arm.updated_at then (overwriteQuestionArm existing arm, 1)
    else (existing, 0)

/-- Row object constructed for a question arm not yet on the server
(sync.py lines 114-128).  The constructor succeeds at the Python level,
but `difficulty` — a NOT NULL column (mab_state.py line 17) — is not
among the keywords passed, so the pending INSERT violates the constraint
and raises IntegrityError when the session flushes it (at the next query
via autoflush, or at `session.commit()` at the latest); `sync_mab_state`
models that failure, so a row built here is never committed.  (The
startup migration in main.py lines 333-341 instead drops the
`difficulty` column from the table, after which the ORM — whose mapped
class still carries the column — fails against the database anyway;
either way no new arm is ever persisted.) -/
def newQuestionArm (userId : String) (arm : QuestionArmSync) : UserMABQuestionArm :=
  { user_id := userId
    question_id := arm.question_id
    difficulty := none
    attempts := arm.attempts
    successes := arm.successes
    failures := arm.failures
    total_response_time_ms := arm.total_response_time_ms
    alpha := arm.alpha
    beta := arm.beta
    user_confidence := arm.user_confidence
    last_attempted := pyTruthyMs arm.last_attempted
    created_at := arm.created_at
    updated_at := some arm.updated_at }

/-- One iteration of the question-arm loop (sync.py lines 86-128) acting
on the accumulated `(rows, conflicts_resolved, pending_insert)` state.
The unique index `idx_user_question` guarantees at most one row matches
the key (with more than one, `scalar_one_or_none` would itself raise), so
replacing every matching row models the in-place mutation of the single
fetched row.  The `none` branch models `session.add(new_arm)`: the row
becomes pending and the Bool component records that the batch now holds
an INSERT that cannot satisfy the NOT NULL `difficulty` column (see
`newQuestionArm`) and will raise at the next flush. -/
def processQuestionArm (userId : String)
    (st : List UserMABQuestionArm × Nat × Bool) (arm : QuestionArmSync) :
    List UserMABQuestionArm × Nat × Bool :=
  match findQuestionArm st.1 userId arm.question_id with
  | some existing =>
    let merged := mergeQuestionArm existing arm
    (st.1.map (fun a =>
        if a.user_id == userId && a.question_id == arm.question_id then merged.1 else a),
      st.2.1 + merged.2, st.2.2)
  | none => (st.1 ++ [newQuestionArm userId arm], st.2.1, true)

/-- The question-arm loop (sync.py lines 86-128): the evolved rows, the
conflict count, and whether some snapshot was new — a pending INSERT
that is doomed to fail. -/
def processQuestionArms (userId : String) (arms : List UserMABQuestionArm)
    (reqArms : List QuestionArmSync) : List UserMABQuestionArm × Nat × Bool :=
  reqArms.foldl (processQuestionArm userId) (arms, 0, false)

/-- The topic-arm loop (sync.py lines 131-175).  Both branches of the loop
body use an attribute `updated_at` on `UserMABTopicArm` (comparison and
assignment at lines 146 and 156 on the fetched row, constructor keyword at
line 173), but the mapped class (mab_state.py lines 77-107) defines
`last_updated` and no `updated_at`; Python therefore raises
`AttributeError` for an existing row and `TypeError` for a new row.  Hence
the loop raises on its first submitted snapshot and succeeds only when the
submitted list is empty. -/
def processTopicArms (arms : List TopicArmSync) : Except String Unit :=
  match arms with
  | [] => Except.ok ()
  | _ :: _ => Except.error "UserMABTopicArm has no attribute updated_at"

/-- The delta fetch for question arms (sync.py lines 181-189): all of the
user's rows, filtered by `updated_at > last_sync_datetime` when a
checkpoint was given.  A SQL comparison against NULL `updated_at` is
unknown, excluding the row. -/
def fetchQuestionArms (arms : List UserMABQuestionArm) (userId : String)
    (lastSync : Option Int) : List UserMABQuestionArm :=
  arms.filter (fun a => a.user_id == userId &&
    match lastSync with
    | none => true
    | some t =>
      match a.updated_at with
      | some u => t < u
      | none => false)

/-- `sync_mab_state` (sync.py lines 65-206).  Returns the endpoint's
result — `Except.ok` with the response, or `Except.error` when the Python
code raises — together with the database state after the call:

* if the question-arm loop added any new row (`session.add`), the pending
  INSERT cannot satisfy the NOT NULL `difficulty` column and raises
  IntegrityError at the next flush — at a later lookup via autoflush
  (still inside the question loop, or at the topic loop's first lookup at
  line 132) or at `session.commit()` (line 177) at the latest; in every
  case before the commit completes, so the transaction rolls back and the
  database is unchanged;
* otherwise, if any topic snapshot was submitted, the topic-arm loop
  raises on its first snapshot (`UserMABTopicArm` has no `updated_at`
  attribute), before `session.commit()`, and again the database is
  unchanged;
* otherwise the commit persists the merged question arms (UPDATEs only,
  which never touch `difficulty`); the subsequent delta fetch evaluates
  `UserMABTopicArm.updated_at` (line 195) whenever `last_sync_time > 0`
  and raises `AttributeError`, after the commit;
* only a bootstrap call (`last_sync_time <= 0`) whose question snapshots
  all match existing rows, with no topic arms, reaches the response. -/
def sync_mab_state (db : MABDatabase) (userId : String) (serverTime : Int)
    (req : SyncRequest) : Except String SyncResponse × MABDatabase :=
  let lastSyncDatetime : Option Int :=
    if req.last_sync_time > 0 then some req.last_sync_time else none
  if (processQuestionArms userId db.questionArms req.question_arms).2.2 = true then
    (Except.error "IntegrityError: null value in column difficulty", db)
  else
    match processTopicArms req.topic_arms with
    | Except.error e => (Except.error e, db)
    | Except.ok _ =>
      let db2 : MABDatabase :=
        { db with
          questionArms := (processQuestionArms userId db.questionArms req.question_arms).1 }
      match lastSyncDatetime with
      | some _ => (Except.error "UserMABTopicArm has no attribute updated_at", db2)
      | none =>
        (Except.ok
          { server_time := serverTime
            question_arms :=
              (fetchQuestionArms db2.questionArms userId none).map UserMABQuestionArm.to_dict
            topic_arms :=
              (db2.topicArms.filter (fun a => a.user_id == userId)).map UserMABTopicArm.to_dict
            conflicts_resolved :=
              ((processQuestionArms userId db.questionArms req.question_arms).2.1 : Int) },
          db2)

/- ==================== Difficulty calculation service ==================== -/

/-- A `student_responses` row (`StudentResponse`, question_metrics.py
lines 62-83), restricted to the columns the difficulty calculator reads:
`user_id`, `question_id`, `is_correct`, `response_time_ms` (NOT NULL
integer) and `created_at`.  The nullable free-text context columns are
never consulted by the calculator. -/
structure ResponseEvent where
  user_id : String
  question_id : String
  is_correct : Bool
  response_time_ms : Int
  created_at : Int
deriving DecidableEq

/-- The rows the aggregation query selects for one question
(difficulty_calculator.py lines 66-78): `question_id = :question_id AND
created_at >= :cutoff_date`. -/
def questionRows (events : List ResponseEvent) (questionId : String)
    (cutoffDate : Int) : List ResponseEvent :=
  events.filter (fun e => e.question_id == questionId && cutoffDate ≤ e.created_at)

/-- `AVG(response_time_ms)` over a row set. -/
def meanResponseTimeMs (rows : List ResponseEvent) : ℚ :=
  (rows.map (fun e => (e.response_time_ms : ℚ))).sum / (rows.length : ℚ)

/-- `_get_active_students_count` (difficulty_calculator.py lines 256-266):
`COUNT(DISTINCT user_id)` over all responses in the window. -/
def activeStudentsCount (events : List ResponseEvent) (cutoffDate : Int) : Nat :=
  ((events.filter (fun e => cutoffDate ≤ e.created_at)).map (fun e => e.user_id)).dedup.length

/-- Python substring membership `needle in haystack`, as containment of
the character list. -/
def strContains (haystack needle : String) : Prop :=
  needle.data <:+: haystack.data

instance (haystack needle : String) : Decidable (strContains haystack needle) :=
  List.decidableInfix needle.data haystack.data

/-- `_extract_knowledge_type` (difficulty_calculator.py lines 240-254):
Python substring membership on the lowercased question id. -/
def extract_knowledge_type (questionId : String) : String :=
  let q := questionId.toLower
  if strContains q "dosage" ∨ strContains q "dose" then "dosage"
  else if strContains q "side_effect" ∨ strContains q "adverse" then "side_effect"
  else if strContains q "pharmacodynamics" ∨ strContains q "mechanism" then
    "pharmacodynamics"
  else if strContains q "pharmacokinetics" ∨ strContains q "absorption" then
    "pharmacokinetics"
  else if strContains q "term" then "terminology"
  else "general"

/-- `EXPECTED_RESPONSE_TIMES.get(knowledge_type, 30)`
(difficulty_calculator.py lines 41-47 and 199). -/
def expectedResponseTime (knowledgeType : String) : ℚ :=
  if knowledgeType = "terminology" then 15
  else if knowledgeType = "dosage" then 30
  else if knowledgeType = "side_effect" then 25
  else if knowledgeType = "pharmacodynamics" then 45
  else if knowledgeType = "pharmacokinetics" then 40
  else 30

/-- `_calculate_composite_difficulty` (difficulty_calculator.py lines
181-210). -/
def calculate_composite_difficulty (successRate reachRate avgResponseTime : ℚ)
    (questionId : String) : ℚ :=
  let successDifficulty := 1 - successRate
  let reachPenalty := max 0 ((0.5 - reachRate) * 2)
  let knowledgeType := extract_knowledge_type questionId
  let expectedTime := expectedResponseTime knowledgeType
  let timeFactor := min 1 (avgResponseTime / expectedTime)
  let compositeScore :=
    successDifficulty * 0.6 + reachPenalty * 0.25 + (timeFactor - 0.5) * 0.15
  max 0 (min 1 compositeScore)

/-- `_score_to_difficulty` (difficulty_calculator.py lines 212-219). -/
def score_to_difficulty (score : ℚ) : String :=
  if score ≤ 0.3 then "beginner"
  else if score ≤ 0.7 then "intermediate"
  else "advanced"

/-- The z value chosen at line 232 of difficulty_calculator.py. -/
noncomputable def ciZ (confidence : ℚ) : ℝ :=
  if confidence = 0.95 then 1.96 else 1.645

/-- `p = successes / total` (difficulty_calculator.py line 231). -/
noncomputable def wilsonP (successes total : ℕ) : ℝ :=
  (successes : ℝ) / (total : ℝ)

/-- `denominator = 1 + z**2 / total` (difficulty_calculator.py line 234). -/
noncomputable def wilsonDenominator (total : ℕ) (z : ℝ) : ℝ :=
  1 + z ^ 2 / (total : ℝ)

/-- `center = (p + z**2 / (2*total)) / denominator`
(difficulty_calculator.py line 235). -/
noncomputable def wilsonCenter (successes total : ℕ) (z : ℝ) : ℝ :=
  (wilsonP successes total + z ^ 2 / (2 * (total : ℝ))) / wilsonDenominator total z

/-- `margin = z * sqrt((p*(1-p) + z**2/(4*total)) / total) / denominator`
(difficulty_calculator.py line 236). -/
noncomputable def wilsonMargin (successes total : ℕ) (z : ℝ) : ℝ :=
  z * Real.sqrt ((wilsonP successes total * (1 - wilsonP successes total)
      + z ^ 2 / (4 * (total : ℝ))) / (total : ℝ)) / wilsonDenominator total z

/-- `_calculate_confidence_interval` (difficulty_calculator.py lines
221-238). -/
noncomputable def calculate_confidence_interval (successes total : ℕ)
    (confidence : ℚ) : ℝ × ℝ :=
  if total = 0 then (0, 0)
  else
    (max 0 (wilsonCenter successes total (ciZ confidence)
        - wilsonMargin successes total (ciZ confidence)),
      min 1 (wilsonCenter successes total (ciZ confidence)
        + wilsonMargin successes total (ciZ confidence)))

/-- Modelled from the spec's Wilson formula, for the refinement check of
the source function against the spec's words: z = 1.96,
center = (p + z²/2n)/(1 + z²/n), margin = z·sqrt(p(1−p)/n + z²/4n²)/(1 + z²/n),
interval [center − margin, center + margin] clamped to [0, 1]. -/
noncomputable def wilsonIntervalSpec (successes total : ℕ) : ℝ × ℝ :=
  let n : ℝ := (total : ℝ)
  let p : ℝ := (successes : ℝ) / n
  let z : ℝ := 1.96
  let center : ℝ := (p + z ^ 2 / (2 * n)) / (1 + z ^ 2 / n)
  let margin : ℝ := z * Real.sqrt (p * (1 - p) / n + z ^ 2 / (4 * n ^ 2)) / (1 + z ^ 2 / n)
  (max 0 (center - margin), min 1 (center + margin))

/-- The record built by `calculate_question_difficulty`
(`DifficultyMetrics` dataclass, difficulty_calculator.py lines 17-28).
`last_computed` carries the `datetime.now()` value supplied by the
caller. -/
structure DifficultyMetrics where
  question_id : String
  global_success_rate : ℚ
  total_attempts : ℕ
  average_response_time : ℚ
  reach_rate : ℚ
  difficulty_score : ℚ
  computed_difficulty : String
  confidence_interval : ℝ × ℝ
  last_computed : Int

/-- `calculate_question_difficulty` (difficulty_calculator.py lines
52-130), with the database replaced by the list of `student_responses`
rows and `datetime.now()` values passed in as `cutoffDate` / `now`.
Returns `none` when the aggregation query yields no row (no matching
responses) or `total_attempts < min_sample_size`.  Note line 91:
`(result.avg_response_time_ms or 30000)` substitutes 30000 whenever the
SQL average is NULL or the (falsy) float 0.0. -/
noncomputable def calculate_question_difficulty (events : List ResponseEvent)
    (questionId : String) (cutoffDate : Int) (minSampleSize : ℕ) (now : Int) :
    Option DifficultyMetrics :=
  let rows := questionRows events questionId cutoffDate
  let totalAttempts := rows.length
  if rows.isEmpty ∨ totalAttempts < minSampleSize then none
  else
    let totalCorrect := (rows.filter (fun e => e.is_correct)).length
    let successRate : ℚ := (totalCorrect : ℚ) / (totalAttempts : ℚ)
    let avgMsRaw : ℚ := meanResponseTimeMs rows
    let avgResponseTime : ℚ := (if avgMsRaw = 0 then 30000 else avgMsRaw) / 1000
    let totalActiveStudents := activeStudentsCount events cutoffDate
    let uniqueUsers := ((rows.map (fun e => e.user_id)).dedup).length
    let reachRate : ℚ := (uniqueUsers : ℚ) / (max totalActiveStudents 1 : ℕ)
    let ci := calculate_confidence_interval totalCorrect totalAttempts 0.95
    let score := calculate_composite_difficulty successRate reachRate avgResponseTime questionId
    some
      { question_id := questionId
        global_success_rate := successRate
        total_attempts := totalAttempts
        average_response_time := avgResponseTime
        reach_rate := reachRate
        difficulty_score := score
        computed_difficulty := score_to_difficulty score
        confidence_interval := ci
        last_computed := now }

/- ==================== Well-formedness and fixtures ==================== -/

/-- The unique index `idx_user_question` (mab_state.py lines 40-42): no
two stored question-arm rows share a `(user_id, question_id)` key. -/
def keyUnique (arms : List UserMABQuestionArm) : Prop :=
  arms.Pairwise (fun a b => a.user_id ≠ b.user_id ∨ a.question_id ≠ b.question_id)

/-- A stored question arm used as concrete test data. -/
def c2Stored : UserMABQuestionArm :=
  { user_id := "u1", question_id := "q1", difficulty := none, attempts := 3,
    successes := 2, failures := 1, total_response_time_ms := 3000, alpha := 3,
    beta := 2, user_confidence := 1, last_attempted := none, created_at := 100,
    updated_at := some 2000 }

/-- A submitted snapshot strictly older than `c2Stored`. -/
def c2Stale : QuestionArmSync :=
  { question_id := "q1", attempts := 1, successes := 1, failures := 0,
    total_response_time_ms := 1000, alpha := 2, beta := 1, user_confidence := 1,
    last_attempted := none, created_at := 10, updated_at := 500 }

/-- A one-row database holding `c2Stored`. -/
def c2Db : MABDatabase := { questionArms := [c2Stored], topicArms := [] }

/-- A bootstrap sync request submitting only the stale snapshot. -/
def c2Req : SyncRequest :=
  { last_sync_time := 0, question_arms := [c2Stale], topic_arms := [] }

/-- A stored question arm with `created_at = 100` and `updated_at = 50`. -/
def c3Existing : UserMABQuestionArm :=
  { user_id := "u1", question_id := "q1", difficulty := none, attempts := 1,
    successes := 1, failures := 0, total_response_time_ms := 500, alpha := 2,
    beta := 1, user_confidence := 1, last_attempted := none, created_at := 100,
    updated_at := some 50 }

/-- A submitted snapshot strictly newer than `c3Existing`, carrying a
different `created_at`. -/
def c3Sub : QuestionArmSync :=
  { question_id := "q1", attempts := 2, successes := 1, failures := 1,
    total_response_time_ms := 900, alpha := 2, beta := 2, user_confidence := 1,
    last_attempted := none, created_at := 200, updated_at := 60 }

/-- A stored, balanced question arm (updated_at 10), overwritable by
strictly newer snapshots. -/
def c6Stored : UserMABQuestionArm :=
  { user_id := "u1", question_id := "q1", difficulty := some "beginner",
    attempts := 2, successes := 1, failures := 1, total_response_time_ms := 2000,
    alpha := 2, beta := 2, user_confidence := 1, last_attempted := none,
    created_at := 5, updated_at := some 10 }

/-- A submitted snapshot violating attempts = successes + failures,
strictly newer than `c6Stored`. -/
def c6BadSnap : QuestionArmSync :=
  { question_id := "q1", attempts := 5, successes := 1, failures := 1,
    total_response_time_ms := 1000, alpha := 2, beta := 1, user_confidence := 1,
    last_attempted := none, created_at := 10, updated_at := 20 }

/-- A submitted snapshot satisfying attempts = successes + failures,
strictly newer than `c6Stored`. -/
def c6GoodSnap : QuestionArmSync :=
  { question_id := "q1", attempts := 1, successes := 1, failures := 0,
    total_response_time_ms := 1000, alpha := 2, beta := 1, user_confidence := 1,
    last_attempted := none, created_at := 10, updated_at := 20 }

/-- Ten in-window responses for "q1" with response_time_ms = 0: the SQL
average is the falsy float 0.0. -/
def c10Events : List ResponseEvent :=
  List.replicate 10
    ({ user_id := "u", question_id := "q1", is_correct := true,
       response_time_ms := 0, created_at := 1 })

/-- Ten in-window responses for "q1" with response_time_ms = 1000. -/
def c10GoodEvents : List ResponseEvent :=
  List.replicate 10
    ({ user_id := "u", question_id := "q1", is_correct := true,
       response_time_ms := 1000, created_at := 1 })

/- ============================ Theorems ============================ -/

/- Helper lemmas about the question-arm merge loop. -/

/-- With a unique `(user_id, question_id)` index, every stored row matching
the looked-up key is the row `find?` returned. -/
theorem matching_key_eq_found (arms : List UserMABQuestionArm) (u k : String)
    (a : UserMABQuestionArm) (huniq : keyUnique arms)
    (hfind : findQuestionArm arms u k = some a) :
    ∀ x ∈ arms, (x.user_id == u && x.question_id == k) = true → x = a := by
  intro x hx hxk
  have hfind' : arms.find? (fun y => y.user_id == u && y.question_id == k) = some a := hfind
  have ha : a ∈ arms := List.mem_of_find?_eq_some hfind'
  by_cases hxa : x = a
  · exact hxa
  · exfalso
    have hsymm : Symmetric
        (fun a b : UserMABQuestionArm => a.user_id ≠ b.user_id ∨ a.question_id ≠ b.question_id) := by
      intro p q hpq
      exact hpq.imp Ne.symm Ne.symm
    have hrel := List.Pairwise.forall hsymm huniq hx ha hxa
    have hak := List.find?_some hfind'
    simp only [Bool.and_eq_true, beq_iff_eq] at hxk hak
    rcases hrel with h | h
    · exact h (hxk.1.trans hak.1.symm)
    · exact h (hxk.2.trans hak.2.symm)

/-- Replacing every row matching the key of a discarded merge by the found
row itself leaves the table unchanged. -/
theorem map_replace_found_eq_self (arms : List UserMABQuestionArm) (u k : String)
    (a : UserMABQuestionArm) (huniq : keyUnique arms)
    (hfind : findQuestionArm arms u k = some a) :
    (arms.map (fun x => if x.user_id == u && x.question_id == k then a else x)) = arms := by
  have h1 : ∀ x ∈ arms,
      (if x.user_id == u && x.question_id == k then a else x) = id x := by
    intro x hx
    by_cases hp : (x.user_id == u && x.question_id == k) = true
    · rw [if_pos hp, id]
      exact (matching_key_eq_found arms u k a huniq hfind x hx hp).symm
    · rw [if_neg hp, id]
  rw [List.map_congr_left h1, List.map_id]

/-- C1: the claim asserts that replaying any sync request with an unchanged
`last_sync_time` yields `conflicts_resolved = 0` and identical arm lists on
the second call.  In the code this fails before any comparison can happen:
whenever `last_sync_time > 0`, the delta fetch evaluates
`UserMABTopicArm.updated_at` (sync.py line 195), an attribute the mapped
class does not define (mab_state.py defines `last_updated`), so both the
first and the replayed call raise and no response is produced at all. -/
theorem sync_replay_with_checkpoint_errors :
    (sync_mab_state { questionArms := [], topicArms := [] } "u1" 5000
        { last_sync_time := 1000, question_arms := [], topic_arms := [] }).1
      = Except.error "UserMABTopicArm has no attribute updated_at" := rfl

/-- C4: the claim asserts topic arms merge exactly like question arms by
comparing `updated_at`; in fact submitting any topic-arm snapshot raises,
because sync.py lines 144-175 use an `updated_at` attribute that
`UserMABTopicArm` (which has `last_updated`) does not define. -/
theorem topic_arm_sync_raises :
    (sync_mab_state { questionArms := [], topicArms := [] } "u1" 5000
        { last_sync_time := 0, question_arms := [],
          topic_arms := [{ topic_key := "algebra_terminology", topic := "algebra",
                           knowledge_type := "terminology", course := "math",
                           attempts := 1, successes := 1, failures := 0,
                           total_response_time_ms := 900, alpha := 2, beta := 1,
                           created_at := 100, updated_at := 100 }] }).1
      = Except.error "UserMABTopicArm has no attribute updated_at" := rfl

/-- C5 counterexample: for a difficulty tag that is none of beginner /
intermediate / advanced, `initialize_prior` sets alpha = 5, beta = 5, not
the uniform prior (1, 1) the claim asserts. -/
theorem initialize_prior_unknown_not_uniform :
    initialize_prior "uncategorized" = (5, 5)
      ∧ initialize_prior "uncategorized" ≠ ((1 : ℚ), (1 : ℚ)) := by
  refine ⟨rfl, ?_⟩
  decide

/-- C5 (amended): beginner → (7, 3), intermediate → (5, 5),
advanced → (3, 7), and any other tag → (5, 5) (not the uniform (1, 1)). -/
theorem initialize_prior_difficulty_mapping (d : String)
    (h : d ≠ "beginner" ∧ d ≠ "intermediate" ∧ d ≠ "advanced") :
    initialize_prior "beginner" = (7, 3)
      ∧ initialize_prior "intermediate" = (5, 5)
      ∧ initialize_prior "advanced" = (3, 7)
      ∧ initialize_prior d = (5, 5) := by
  obtain ⟨h1, h2, h3⟩ := h
  refine ⟨rfl, rfl, rfl, ?_⟩
  simp [initialize_prior, h1, h2, h3]

/-- Witness for C5's amended theorem at the tag "uncategorized". -/
theorem initialize_prior_difficulty_mapping_witness :
    ("uncategorized" ≠ "beginner" ∧ "uncategorized" ≠ "intermediate"
        ∧ "uncategorized" ≠ "advanced")
      ∧ (initialize_prior "beginner" = (7, 3)
        ∧ initialize_prior "intermediate" = (5, 5)
        ∧ initialize_prior "advanced" = (3, 7)
        ∧ initialize_prior "uncategorized" = (5, 5)) :=
  ⟨by decide, initialize_prior_difficulty_mapping "uncategorized" (by decide)⟩

/-- C3 counterexample: a winning merge (stored updated_at 50 < submitted 60)
keeps the stored `created_at` (100), so the replace is not "every field
including created_at" (the submission carried 200). -/
theorem merge_does_not_overwrite_created_at :
    (mergeQuestionArm c3Existing c3Sub).2 = 1
      ∧ (mergeQuestionArm c3Existing c3Sub).1.created_at = 100
      ∧ (mergeQuestionArm c3Existing c3Sub).1.created_at ≠ c3Sub.created_at := by
  refine ⟨rfl, rfl, ?_⟩
  decide

/-- C3 (amended): when the stored `updated_at` is null or the submitted
one is strictly newer, the merge overwrites the nine fields carried by the
snapshot, preserves `user_id`, `question_id`, `difficulty` and
`created_at`, and adds one to `conflicts_resolved`. -/
theorem merge_newer_overwrites_submitted_fields (existing : UserMABQuestionArm)
    (arm : QuestionArmSync)
    (h : existing.updated_at = none
      ∨ ∃ t, existing.updated_at = some t ∧ t < arm.updated_at) :
    mergeQuestionArm existing arm =
      ({ user_id := existing.user_id
         question_id := existing.question_id
         difficulty := existing.difficulty
         attempts := arm.attempts
         successes := arm.successes
         failures := arm.failures
         total_response_time_ms := arm.total_response_time_ms
         alpha := arm.alpha
         beta := arm.beta
         user_confidence := arm.user_confidence
         last_attempted := pyTruthyMs arm.last_attempted
         created_at := existing.created_at
         updated_at := some arm.updated_at }, 1) := by
  rcases h with h | ⟨t, ht, hlt⟩
  · simp [mergeQuestionArm, h, overwriteQuestionArm]
  · simp [mergeQuestionArm, ht, hlt, overwriteQuestionArm]

/-- Witness for C3's amended theorem at `c3Existing` / `c3Sub`. -/
theorem merge_newer_overwrites_submitted_fields_witness :
    (c3Existing.updated_at = none
        ∨ ∃ t, c3Existing.updated_at = some t ∧ t < c3Sub.updated_at)
      ∧ mergeQuestionArm c3Existing c3Sub =
        ({ user_id := c3Existing.user_id
           question_id := c3Existing.question_id
           difficulty := c3Existing.difficulty
           attempts := c3Sub.attempts
           successes := c3Sub.successes
           failures := c3Sub.failures
           total_response_time_ms := c3Sub.total_response_time_ms
           alpha := c3Sub.alpha
           beta := c3Sub.beta
           user_confidence := c3Sub.user_confidence
           last_attempted := pyTruthyMs c3Sub.last_attempted
           created_at := c3Existing.created_at
           updated_at := some c3Sub.updated_at }, 1) :=
  ⟨Or.inr ⟨50, rfl, by decide⟩,
    merge_newer_overwrites_submitted_fields c3Existing c3Sub
      (Or.inr ⟨50, rfl, by decide⟩)⟩

/-- C2 counterexample: with a stored arm (updated_at 2000) and a strictly
older submitted snapshot (updated_at 500), a sync carrying the claim's
"unchanged last_sync_time" as any positive checkpoint produces no response
at all (the delta fetch raises), so the unchanged stored record is not
returned in any response arm list. -/
theorem sync_stale_snapshot_no_response :
    (sync_mab_state { questionArms := [c2Stored], topicArms := [] } "u1" 5000
        { last_sync_time := 1000, question_arms := [c2Stale], topic_arms := [] }).1
      = Except.error "UserMABTopicArm has no attribute updated_at" := rfl

/-- C2 (amended): for a bootstrap sync (`last_sync_time <= 0`, no topic
arms) whose payload is one snapshot strictly older than the stored arm's
non-null `updated_at`, the call succeeds, the whole stored state is
unchanged, `conflicts_resolved` is 0, and the unchanged stored record's
dictionary is in the response's question-arm list. -/
theorem sync_stale_snapshot_discarded (db : MABDatabase) (userId : String)
    (serverTime tS : Int) (a : UserMABQuestionArm) (sub : QuestionArmSync)
    (req : SyncRequest)
    (huniq : keyUnique db.questionArms)
    (hfind : findQuestionArm db.questionArms userId sub.question_id = some a)
    (hupd : a.updated_at = some tS)
    (hold : sub.updated_at ≤ tS)
    (hlst : req.last_sync_time ≤ 0)
    (hqa : req.question_arms = [sub])
    (hta : req.topic_arms = []) :
    (sync_mab_state db userId serverTime req
        = (Except.ok
            { server_time := serverTime
              question_arms :=
                (fetchQuestionArms db.questionArms userId none).map UserMABQuestionArm.to_dict
              topic_arms :=
                (db.topicArms.filter (fun x => x.user_id == userId)).map UserMABTopicArm.to_dict
              conflicts_resolved := 0 }, db))
      ∧ a.to_dict ∈ (fetchQuestionArms db.questionArms userId none).map UserMABQuestionArm.to_dict := by
  have hfind' : db.questionArms.find?
      (fun y => y.user_id == userId && y.question_id == sub.question_id) = some a := hfind
  have hproc : processQuestionArms userId db.questionArms [sub]
      = (db.questionArms, 0, false) := by
    unfold processQuestionArms
    rw [List.foldl_cons, List.foldl_nil]
    unfold processQuestionArm
    rw [hfind]
    have hm : mergeQuestionArm a sub = (a, 0) := by
      have hnot : ¬ tS < sub.updated_at := not_lt.mpr hold
      simp [mergeQuestionArm, hupd, hnot]
    simp only [hm]
    rw [map_replace_found_eq_self db.questionArms userId sub.question_id a huniq hfind]
  constructor
  · rcases req with ⟨lst, qas, tas⟩
    simp only at hlst hqa hta
    subst hqa
    subst hta
    unfold sync_mab_state
    simp only [processTopicArms]
    rw [if_neg (by omega : ¬ lst > 0)]
    rw [hproc]
    rfl
  · have ha : a ∈ db.questionArms := List.mem_of_find?_eq_some hfind'
    have hak := List.find?_some hfind'
    apply List.mem_map_of_mem
    unfold fetchQuestionArms
    apply List.mem_filter.mpr
    refine ⟨ha, ?_⟩
    simp only [Bool.and_eq_true, beq_iff_eq] at hak ⊢
    exact ⟨hak.1, trivial⟩

/-- Witness for C2's amended theorem on `c2Db` / `c2Req`. -/
theorem sync_stale_snapshot_discarded_witness :
    (keyUnique c2Db.questionArms
        ∧ findQuestionArm c2Db.questionArms "u1" c2Stale.question_id = some c2Stored
        ∧ c2Stored.updated_at = some 2000
        ∧ c2Stale.updated_at ≤ 2000
        ∧ c2Req.last_sync_time ≤ 0)
      ∧ ((sync_mab_state c2Db "u1" 999 c2Req
          = (Except.ok
              { server_time := 999
                question_arms :=
                  (fetchQuestionArms c2Db.questionArms "u1" none).map UserMABQuestionArm.to_dict
                topic_arms :=
                  (c2Db.topicArms.filter (fun x => x.user_id == "u1")).map UserMABTopicArm.to_dict
                conflicts_resolved := 0 }, c2Db))
        ∧ c2Stored.to_dict
            ∈ (fetchQuestionArms c2Db.questionArms "u1" none).map UserMABQuestionArm.to_dict) :=
  ⟨⟨by simp [keyUnique, c2Db], rfl, rfl, by decide, by decide⟩,
    sync_stale_snapshot_discarded c2Db "u1" 999 2000 c2Stored c2Stale c2Req
      (by simp [keyUnique, c2Db]) rfl rfl (by decide) (by decide) rfl rfl⟩

/-- A winning or discarded merge keeps attempts = successes + failures
when both the stored row and the snapshot satisfy it. -/
theorem mergeQuestionArm_preserves_balance (existing : UserMABQuestionArm)
    (arm : QuestionArmSync)
    (hex : existing.attempts = existing.successes + existing.failures)
    (harm : arm.attempts = arm.successes + arm.failures) :
    (mergeQuestionArm existing arm).1.attempts
      = (mergeQuestionArm existing arm).1.successes
        + (mergeQuestionArm existing arm).1.failures := by
  unfold mergeQuestionArm overwriteQuestionArm
  cases existing.updated_at with
  | none => simpa using harm
  | some t =>
    by_cases h : t < arm.updated_at
    · simpa [h] using harm
    · simpa [h] using hex

/-- One iteration of the question-arm loop keeps every stored row
balanced when the snapshot is balanced. -/
theorem processQuestionArm_preserves_balance (userId : String)
    (st : List UserMABQuestionArm × Nat × Bool) (arm : QuestionArmSync)
    (hst : ∀ a ∈ st.1, a.attempts = a.successes + a.failures)
    (harm : arm.attempts = arm.successes + arm.failures) :
    ∀ a ∈ (processQuestionArm userId st arm).1,
      a.attempts = a.successes + a.failures := by
  intro a ha
  unfold processQuestionArm at ha
  cases hfind : findQuestionArm st.1 userId arm.question_id with
  | none =>
    rw [hfind] at ha
    simp only [List.mem_append, List.mem_singleton] at ha
    rcases ha with h | h
    · exact hst a h
    · subst h
      simpa [newQuestionArm] using harm
  | some existing =>
    rw [hfind] at ha
    simp only [List.mem_map] at ha
    obtain ⟨x, hx, hfa⟩ := ha
    have hex : existing.attempts = existing.successes + existing.failures := by
      have hfind' : st.1.find?
          (fun y => y.user_id == userId && y.question_id == arm.question_id)
            = some existing := hfind
      exact hst existing (List.mem_of_find?_eq_some hfind')
    by_cases hp : (x.user_id == userId && x.question_id == arm.question_id) = true
    · rw [if_pos hp] at hfa
      rw [← hfa]
      exact mergeQuestionArm_preserves_balance existing arm hex harm
    · rw [if_neg hp] at hfa
      rw [← hfa]
      exact hst x hx
/-- The whole question-arm loop keeps every stored row balanced when every
submitted snapshot is balanced. -/
theorem processQuestionArms_preserves_balance (userId : String)
    (subs : List QuestionArmSync) :
    ∀ (st : List UserMABQuestionArm × Nat × Bool),
      (∀ a ∈ st.1, a.attempts = a.successes + a.failures) →
      (∀ s ∈ subs, s.attempts = s.successes + s.failures) →
      ∀ a ∈ (subs.foldl (processQuestionArm userId) st).1,
        a.attempts = a.successes + a.failures := by
  induction subs with
  | nil => intro st hst _; simpa using hst
  | cons s rest ih =>
    intro st hst hsubs
    rw [List.foldl_cons]
    exact ih (processQuestionArm userId st s)
      (processQuestionArm_preserves_balance userId st s hst
        (hsubs s (List.mem_cons_self s rest)))
      (fun x hx => hsubs x (List.mem_cons_of_mem s hx))

/-- C6 counterexample: the winning overwrite (sync.py lines 102-104)
copies client counters verbatim with no validation, so a bootstrap sync
submitting a strictly newer snapshot with attempts = 5, successes = 1,
failures = 1 for an existing stored arm succeeds, and both the stored
state and the response carry an arm violating
attempts = successes + failures. -/
theorem sync_balance_counterexample :
    ((sync_mab_state { questionArms := [c6Stored], topicArms := [] } "u1" 99
          { last_sync_time := 0, question_arms := [c6BadSnap], topic_arms := [] }).1.toOption.map
        (fun r => r.question_arms.map (fun d => (d.attempts, d.successes, d.failures))))
      = some [(5, 1, 1)]
    ∧ ((sync_mab_state { questionArms := [c6Stored], topicArms := [] } "u1" 99
          { last_sync_time := 0, question_arms := [c6BadSnap], topic_arms := [] }).2.questionArms.map
        (fun a => (a.attempts, a.successes, a.failures)))
      = [(5, 1, 1)]
    ∧ (5 : Int) ≠ 1 + 1 := by
  refine ⟨rfl, rfl, ?_⟩
  decide

/-- C6 (amended): provided every submitted snapshot satisfies
attempts = successes + failures and every stored arm does, the equality
holds for every stored arm after the call — on the success path and on
every raising path — and for every arm in a returned list. -/
theorem sync_preserves_balance (db : MABDatabase) (userId : String)
    (serverTime : Int) (req : SyncRequest)
    (hdbq : ∀ a ∈ db.questionArms, a.attempts = a.successes + a.failures)
    (hdbt : ∀ a ∈ db.topicArms, a.attempts = a.successes + a.failures)
    (hreqq : ∀ s ∈ req.question_arms, s.attempts = s.successes + s.failures)
    (hreqt : ∀ s ∈ req.topic_arms, s.attempts = s.successes + s.failures) :
    (∀ a ∈ (sync_mab_state db userId serverTime req).2.questionArms,
        a.attempts = a.successes + a.failures)
      ∧ (∀ a ∈ (sync_mab_state db userId serverTime req).2.topicArms,
        a.attempts = a.successes + a.failures)
      ∧ (∀ resp, (sync_mab_state db userId serverTime req).1 = Except.ok resp →
          (∀ d ∈ resp.question_arms, d.attempts = d.successes + d.failures)
            ∧ (∀ d ∈ resp.topic_arms, d.attempts = d.successes + d.failures)) := by
  have hmerged : ∀ a ∈ (processQuestionArms userId db.questionArms req.question_arms).1,
      a.attempts = a.successes + a.failures :=
    processQuestionArms_preserves_balance userId req.question_arms
      (db.questionArms, 0, false) hdbq hreqq
  unfold sync_mab_state
  by_cases hins : (processQuestionArms userId db.questionArms req.question_arms).2.2 = true
  · rw [if_pos hins]
    exact ⟨hdbq, hdbt, fun resp h => by cases h⟩
  · rw [if_neg hins]
    cases hta : req.topic_arms with
    | cons s rest =>
      simp only [processTopicArms]
      exact ⟨hdbq, hdbt, fun resp h => by cases h⟩
    | nil =>
      simp only [processTopicArms]
      by_cases hpos : req.last_sync_time > 0
      · rw [if_pos hpos]
        refine ⟨hmerged, hdbt, fun resp h => by cases h⟩
      · rw [if_neg hpos]
        refine ⟨hmerged, hdbt, fun resp h => ?_⟩
        have hresp : resp =
            { server_time := serverTime
              question_arms := (fetchQuestionArms
                  (processQuestionArms userId db.questionArms req.question_arms).1 userId
                  none).map UserMABQuestionArm.to_dict
              topic_arms := (db.topicArms.filter (fun a => a.user_id == userId)).map
                UserMABTopicArm.to_dict
              conflicts_resolved :=
                ((processQuestionArms userId db.questionArms req.question_arms).2.1 : Int) } := by
          cases h
          rfl
        subst hresp
        constructor
        · intro d hd
          simp only [List.mem_map] at hd
          obtain ⟨x, hx, hdx⟩ := hd
          have hxm : x ∈ (processQuestionArms userId db.questionArms req.question_arms).1 := by
            have := List.mem_filter.mp hx
            exact this.1
          subst hdx
          simpa [UserMABQuestionArm.to_dict] using hmerged x hxm
        · intro d hd
          simp only [List.mem_map] at hd
          obtain ⟨x, hx, hdx⟩ := hd
          have hxm : x ∈ db.topicArms := (List.mem_filter.mp hx).1
          subst hdx
          simpa [UserMABTopicArm.to_dict] using hdbt x hxm

/-- Witness for C6's amended theorem on a bootstrap overwrite of one
stored balanced arm by one balanced, strictly newer snapshot. -/
theorem sync_preserves_balance_witness :
    ((∀ a ∈ [c6Stored], a.attempts = a.successes + a.failures)
        ∧ (∀ s ∈ [c6GoodSnap], s.attempts = s.successes + s.failures))
      ∧ ((∀ a ∈ (sync_mab_state { questionArms := [c6Stored], topicArms := [] } "u1" 99
            { last_sync_time := 0, question_arms := [c6GoodSnap], topic_arms := [] }).2.questionArms,
          a.attempts = a.successes + a.failures)
        ∧ (∀ a ∈ (sync_mab_state { questionArms := [c6Stored], topicArms := [] } "u1" 99
            { last_sync_time := 0, question_arms := [c6GoodSnap], topic_arms := [] }).2.topicArms,
          a.attempts = a.successes + a.failures)
        ∧ (∀ resp, (sync_mab_state { questionArms := [c6Stored], topicArms := [] } "u1" 99
              { last_sync_time := 0, question_arms := [c6GoodSnap], topic_arms := [] }).1
                = Except.ok resp →
            (∀ d ∈ resp.question_arms, d.attempts = d.successes + d.failures)
              ∧ (∀ d ∈ resp.topic_arms, d.attempts = d.successes + d.failures))) :=
  ⟨⟨by decide, by decide⟩,
    sync_preserves_balance { questionArms := [c6Stored], topicArms := [] } "u1" 99
      { last_sync_time := 0, question_arms := [c6GoodSnap], topic_arms := [] }
      (by decide) (by simp) (by decide) (by simp)⟩

/-- C7: with a positive minimum sample size (the default is 10), the
calculation returns an absent result exactly when the item has fewer than
`min_sample_size` responses in the trailing window, and a populated
record otherwise; the embedding is total, so no exception path exists. -/
theorem insufficient_data_iff_absent (events : List ResponseEvent)
    (questionId : String) (cutoffDate : Int) (minSampleSize : ℕ) (now : Int)
    (hmin : 1 ≤ minSampleSize) :
    calculate_question_difficulty events questionId cutoffDate minSampleSize now = none
      ↔ (questionRows events questionId cutoffDate).length < minSampleSize := by
  unfold calculate_question_difficulty
  by_cases h : (questionRows events questionId cutoffDate).isEmpty = true
    ∨ (questionRows events questionId cutoffDate).length < minSampleSize
  · rw [if_pos h]
    simp only [true_iff]
    rcases h with h | h
    · rw [List.isEmpty_iff] at h
      rw [h]
      simpa using hmin
    · exact h
  · rw [if_neg h]
    push_neg at h
    simp only [reduceCtorEq, false_iff, not_lt]
    exact h.2

/-- Witness for C7 at the empty response log and the default minimum
sample size 10. -/
theorem insufficient_data_iff_absent_witness :
    1 ≤ 10
      ∧ (calculate_question_difficulty [] "q1" 0 10 0 = none
        ↔ (questionRows [] "q1" 0).length < 10) :=
  ⟨by decide, insufficient_data_iff_absent [] "q1" 0 10 0 (by decide)⟩

/-- C9: the composite difficulty score is
0.6·(1 − success_rate) + 0.25·reach_penalty + 0.15·(time_factor − 0.5)
with reach_penalty = max(0, (0.5 − reach_rate)·2) and
time_factor = min(1, avg_response_time / expected_time), clamped to
[0, 1]; and the category mapping is ≤ 0.3 → beginner, ≤ 0.7 →
intermediate, else advanced. -/
theorem composite_difficulty_formula :
    (∀ (successRate reachRate avgResponseTime : ℚ) (questionId : String),
      calculate_composite_difficulty successRate reachRate avgResponseTime questionId
        = max 0 (min 1 (0.6 * (1 - successRate)
            + 0.25 * (max 0 ((0.5 - reachRate) * 2))
            + 0.15 * (min 1 (avgResponseTime
                / expectedResponseTime (extract_knowledge_type questionId)) - 0.5))))
      ∧ (∀ score : ℚ, score_to_difficulty score
        = if score ≤ 0.3 then "beginner"
          else if score ≤ 0.7 then "intermediate" else "advanced") := by
  constructor
  · intro successRate reachRate avgResponseTime questionId
    unfold calculate_composite_difficulty
    ring_nf
  · intro score
    rfl

/-- C10 counterexample: ten in-window responses with response_time_ms = 0
give mean 0, and `(avg or 30000) / 1000` reports 30 seconds instead of
the claimed mean/1000 = 0. -/
theorem average_response_time_zero_mean :
    ((calculate_question_difficulty c10Events "q1" 0 10 77).map
        (fun m => m.average_response_time)) = some 30
      ∧ meanResponseTimeMs (questionRows c10Events "q1" 0) = 0
      ∧ (30 : ℚ) ≠ 0 / 1000 := by
  have hrows : questionRows c10Events "q1" 0 = c10Events := rfl
  have hmean : meanResponseTimeMs (questionRows c10Events "q1" 0) = 0 := by
    rw [hrows]
    simp [meanResponseTimeMs, c10Events, List.replicate]
  refine ⟨?_, hmean, by norm_num⟩
  unfold calculate_question_difficulty
  rw [if_neg (by decide)]
  simp only [Option.map_some]
  rw [hmean]
  norm_num

/-- C10 (amended): for a qualifying item, the reported
average_response_time is mean(response_time_ms)/1000 whenever that mean is
nonzero; a zero (Python-falsy) or NULL SQL average is replaced by 30000 ms
before the division. -/
theorem average_response_time_is_scaled_mean (events : List ResponseEvent)
    (questionId : String) (cutoffDate : Int) (minSampleSize : ℕ) (now : Int)
    (hmin : 1 ≤ minSampleSize)
    (hlen : minSampleSize ≤ (questionRows events questionId cutoffDate).length)
    (hmean : meanResponseTimeMs (questionRows events questionId cutoffDate) ≠ 0) :
    (calculate_question_difficulty events questionId cutoffDate minSampleSize now).map
        (fun m => m.average_response_time)
      = some (meanResponseTimeMs (questionRows events questionId cutoffDate) / 1000) := by
  unfold calculate_question_difficulty
  rw [if_neg ?_]
  · simp only [Option.map, if_neg hmean]
  · push_neg
    refine ⟨?_, by omega⟩
    intro hemp
    rw [List.isEmpty_iff] at hemp
    rw [hemp] at hlen
    simp only [List.length_nil, Nat.le_zero] at hlen
    omega

/-- Witness for C10's amended theorem on ten 1000 ms responses. -/
theorem average_response_time_is_scaled_mean_witness :
    (1 ≤ 10
        ∧ 10 ≤ (questionRows c10GoodEvents "q1" 0).length
        ∧ meanResponseTimeMs (questionRows c10GoodEvents "q1" 0) ≠ 0)
      ∧ (calculate_question_difficulty c10GoodEvents "q1" 0 10 0).map
          (fun m => m.average_response_time)
        = some (meanResponseTimeMs (questionRows c10GoodEvents "q1" 0) / 1000) :=
  ⟨⟨by decide, by decide,
      by simp [meanResponseTimeMs, c10GoodEvents, questionRows, List.replicate]
         norm_num⟩,
    average_response_time_is_scaled_mean c10GoodEvents "q1" 0 10 0 (by decide) (by decide)
      (by simp [meanResponseTimeMs, c10GoodEvents, questionRows, List.replicate]
          norm_num)⟩

/- Helper lemmas for the Wilson confidence interval. -/

/-- The default confidence 0.95 selects z = 1.96. -/
theorem ciZ_default : ciZ 0.95 = (1.96 : ℝ) := by norm_num [ciZ]

/-- Core Wilson bound: z·sqrt((p(1−p) + z²/4n)/n) ≤ p + z²/2n for
p ∈ [0, 1], n > 0. -/
theorem wilson_aux_ineq (p n : ℝ) (hn : 0 < n) (hp0 : 0 ≤ p) (hp1 : p ≤ 1) :
    1.96 * Real.sqrt ((p * (1 - p) + 1.96 ^ 2 / (4 * n)) / n)
      ≤ p + 1.96 ^ 2 / (2 * n) := by
  have hn' : n ≠ 0 := ne_of_gt hn
  have hc0 : 0 ≤ p * (1 - p) := mul_nonneg hp0 (by linarith)
  have hA : 0 ≤ (p * (1 - p) + 1.96 ^ 2 / (4 * n)) / n := by
    apply div_nonneg _ hn.le
    have : (0:ℝ) ≤ 1.96 ^ 2 / (4 * n) := by positivity
    linarith
  have hB : (0:ℝ) ≤ p + 1.96 ^ 2 / (2 * n) := by
    have : (0:ℝ) ≤ 1.96 ^ 2 / (2 * n) := by positivity
    linarith
  have h1 : Real.sqrt ((p * (1 - p) + 1.96 ^ 2 / (4 * n)) / n)
      ≤ (p + 1.96 ^ 2 / (2 * n)) / 1.96 := by
    rw [show (p + 1.96 ^ 2 / (2 * n)) / 1.96
        = Real.sqrt (((p + 1.96 ^ 2 / (2 * n)) / 1.96) ^ 2) from
      (Real.sqrt_sq (by positivity)).symm]
    apply Real.sqrt_le_sqrt
    rw [div_pow]
    rw [div_le_div_iff₀ hn (by norm_num : (0:ℝ) < 1.96 ^ 2)]
    field_simp
    rw [div_le_div_iff₀ (by positivity) (by positivity)]
    nlinarith [sq_nonneg (n * p), mul_nonneg hn.le (sq_nonneg p), mul_pos hn hn,
      mul_nonneg (mul_nonneg hn.le hn.le) (sq_nonneg p)]
  calc 1.96 * Real.sqrt ((p * (1 - p) + 1.96 ^ 2 / (4 * n)) / n)
      ≤ 1.96 * ((p + 1.96 ^ 2 / (2 * n)) / 1.96) := by
        exact mul_le_mul_of_nonneg_left h1 (by norm_num)
    _ = p + 1.96 ^ 2 / (2 * n) := by
        field_simp
        ring

/-- For 0 < t and s ≤ t the clamps of the Wilson interval never bite:
center − margin ≥ 0 and center + margin ≤ 1. -/
theorem wilson_no_clamp (s t : ℕ) (ht : 0 < t) (hs : s ≤ t) :
    0 ≤ wilsonCenter s t 1.96 - wilsonMargin s t 1.96
      ∧ wilsonCenter s t 1.96 + wilsonMargin s t 1.96 ≤ 1 := by
  have hn : (0:ℝ) < (t:ℝ) := by exact_mod_cast ht
  have hp0 : 0 ≤ wilsonP s t := by unfold wilsonP; positivity
  have hp1 : wilsonP s t ≤ 1 := by
    unfold wilsonP
    rw [div_le_one hn]
    exact_mod_cast hs
  have hD : 0 < wilsonDenominator t 1.96 := by
    unfold wilsonDenominator
    positivity
  constructor
  · rw [sub_nonneg]
    unfold wilsonMargin wilsonCenter
    apply (div_le_div_iff_of_pos_right hD).mpr
    exact wilson_aux_ineq (wilsonP s t) (t:ℝ) hn hp0 hp1
  · unfold wilsonMargin wilsonCenter
    rw [div_add_div_same, div_le_one hD]
    have h2 := wilson_aux_ineq (1 - wilsonP s t) (t:ℝ) hn (by linarith) (by linarith)
    have harg : (1 - wilsonP s t) * (1 - (1 - wilsonP s t))
        = wilsonP s t * (1 - wilsonP s t) := by ring
    rw [harg] at h2
    unfold wilsonDenominator
    have hhalf : 1.96 ^ 2 / (2 * (t:ℝ)) + 1.96 ^ 2 / (2 * (t:ℝ)) = 1.96 ^ 2 / (t:ℝ) := by
      field_simp
      ring
    linarith

/-- The margin rewritten over the common denominator n + z². -/
theorem wilsonMargin_eq (s t : ℕ) (ht : 0 < t) (hs : s ≤ t) :
    wilsonMargin s t 1.96
      = 1.96 * Real.sqrt (wilsonP s t * (1 - wilsonP s t) * (t:ℝ) + 1.96 ^ 2 / 4)
          / ((t:ℝ) + 1.96 ^ 2) := by
  have hn : (0:ℝ) < (t:ℝ) := by exact_mod_cast ht
  have hn' : (t:ℝ) ≠ 0 := ne_of_gt hn
  have hp0 : 0 ≤ wilsonP s t := by unfold wilsonP; positivity
  have hp1 : wilsonP s t ≤ 1 := by
    unfold wilsonP
    rw [div_le_one hn]
    exact_mod_cast hs
  have hX : 0 ≤ wilsonP s t * (1 - wilsonP s t) * (t:ℝ) + 1.96 ^ 2 / 4 := by
    have := mul_nonneg (mul_nonneg hp0 (by linarith : 0 ≤ 1 - wilsonP s t)) hn.le
    nlinarith
  unfold wilsonMargin wilsonDenominator
  rw [show (wilsonP s t * (1 - wilsonP s t) + 1.96 ^ 2 / (4 * (t:ℝ))) / (t:ℝ)
      = (wilsonP s t * (1 - wilsonP s t) * (t:ℝ) + 1.96 ^ 2 / 4) / (t:ℝ) ^ 2 by
    field_simp
    ring]
  rw [Real.sqrt_div hX ((t:ℝ) ^ 2), Real.sqrt_sq hn.le]
  field_simp
  ring

/-- The squared margin strictly decreases in n for a fixed product
c = p(1−p) ∈ [0, 1/4]. -/
theorem wilsonMarginSq_mono (c n₁ n₂ : ℝ) (hc0 : 0 ≤ c) (hc : c ≤ 1 / 4)
    (h1 : 1 ≤ n₁) (h12 : n₁ < n₂) :
    (1.96:ℝ) ^ 2 * (c * n₂ + 1.96 ^ 2 / 4) / (n₂ + 1.96 ^ 2) ^ 2
      < 1.96 ^ 2 * (c * n₁ + 1.96 ^ 2 / 4) / (n₁ + 1.96 ^ 2) ^ 2 := by
  have hd₁ : (0:ℝ) < (n₁ + 1.96 ^ 2) ^ 2 := by nlinarith
  have hd₂ : (0:ℝ) < (n₂ + 1.96 ^ 2) ^ 2 := by nlinarith
  rw [div_lt_div_iff₀ hd₂ hd₁]
  have hbr : (0:ℝ) < c * n₁ * n₂ + 1.96 ^ 2 / 4 * (n₁ + n₂)
      + 2 * 1.96 ^ 2 * (1.96 ^ 2 / 4) - c * (1.96 ^ 2) ^ 2 := by
    nlinarith [mul_nonneg (mul_nonneg hc0 (by linarith : (0:ℝ) ≤ n₁))
      (by linarith : (0:ℝ) ≤ n₂)]
  nlinarith [mul_pos (sub_pos.mpr h12) hbr]

/-- Equal proportions s₁/t₁ = s₂/t₂ give equal p. -/
theorem wilsonP_eq_of_prop (s₁ t₁ s₂ t₂ : ℕ) (ht₁ : 0 < t₁) (ht₂ : 0 < t₂)
    (hp : s₁ * t₂ = s₂ * t₁) : wilsonP s₂ t₂ = wilsonP s₁ t₁ := by
  have hn₁ : (0:ℝ) < (t₁:ℝ) := by exact_mod_cast ht₁
  have hn₂ : (0:ℝ) < (t₂:ℝ) := by exact_mod_cast ht₂
  unfold wilsonP
  rw [div_eq_div_iff (ne_of_gt hn₂) (ne_of_gt hn₁)]
  exact_mod_cast hp.symm

/-- For a fixed proportion the Wilson margin strictly decreases as the
sample grows. -/
theorem wilsonMargin_strict_anti (s₁ t₁ s₂ t₂ : ℕ) (ht₁ : 0 < t₁) (ht : t₁ < t₂)
    (hs₁ : s₁ ≤ t₁) (hs₂ : s₂ ≤ t₂) (hp : s₁ * t₂ = s₂ * t₁) :
    wilsonMargin s₂ t₂ 1.96 < wilsonMargin s₁ t₁ 1.96 := by
  have ht₂ : 0 < t₂ := lt_trans ht₁ ht
  have hn₁ : (0:ℝ) < (t₁:ℝ) := by exact_mod_cast ht₁
  have hn₂ : (0:ℝ) < (t₂:ℝ) := by exact_mod_cast ht₂
  have hpeq := wilsonP_eq_of_prop s₁ t₁ s₂ t₂ ht₁ ht₂ hp
  have hp0 : 0 ≤ wilsonP s₁ t₁ := by unfold wilsonP; positivity
  have hp1 : wilsonP s₁ t₁ ≤ 1 := by
    unfold wilsonP
    rw [div_le_one hn₁]
    exact_mod_cast hs₁
  set p := wilsonP s₁ t₁ with hpdef
  have hc0 : 0 ≤ p * (1 - p) := mul_nonneg hp0 (by linarith)
  have hc : p * (1 - p) ≤ 1 / 4 := by nlinarith [sq_nonneg (p - 1 / 2)]
  rw [wilsonMargin_eq s₂ t₂ ht₂ hs₂, wilsonMargin_eq s₁ t₁ ht₁ hs₁, hpeq, ← hpdef]
  have hX₁ : 0 ≤ p * (1 - p) * (t₁:ℝ) + 1.96 ^ 2 / 4 := by nlinarith
  have hX₂ : 0 ≤ p * (1 - p) * (t₂:ℝ) + 1.96 ^ 2 / 4 := by nlinarith
  have hM₁nonneg : 0 ≤ 1.96 * Real.sqrt (p * (1 - p) * (t₁:ℝ) + 1.96 ^ 2 / 4)
      / ((t₁:ℝ) + 1.96 ^ 2) := by positivity
  apply lt_of_pow_lt_pow_left₀ 2 hM₁nonneg
  rw [div_pow, div_pow, mul_pow, mul_pow]
  rw [Real.sq_sqrt hX₂, Real.sq_sqrt hX₁]
  exact wilsonMarginSq_mono (p * (1 - p)) (t₁:ℝ) (t₂:ℝ) hc0 hc
    (by exact_mod_cast ht₁) (by exact_mod_cast ht)

/-- The source's interval (z selected by confidence = 0.95) coincides with
the spec's Wilson formula, including at total = 0, where both produce
(0, 0). -/
theorem wilson_matches_spec (s t : ℕ) :
    calculate_confidence_interval s t 0.95 = wilsonIntervalSpec s t := by
  unfold calculate_confidence_interval wilsonIntervalSpec
  rcases Nat.eq_zero_or_pos t with ht | ht
  · subst ht
    rw [if_pos rfl]
    simp [wilsonP, Real.sqrt_zero]
  · have ht' : t ≠ 0 := Nat.pos_iff_ne_zero.mp ht
    have hn : (0:ℝ) < (t:ℝ) := by exact_mod_cast ht
    have hn' : (t:ℝ) ≠ 0 := ne_of_gt hn
    rw [if_neg ht']
    rw [ciZ_default]
    have harg : (wilsonP s t * (1 - wilsonP s t) + 1.96 ^ 2 / (4 * (t:ℝ))) / (t:ℝ)
        = wilsonP s t * (1 - wilsonP s t) / (t:ℝ) + 1.96 ^ 2 / (4 * (t:ℝ) ^ 2) := by
      field_simp
      ring
    unfold wilsonCenter wilsonMargin wilsonDenominator wilsonP
    unfold wilsonP at harg
    rw [harg]

/-- For successes = 5, total = 10 the interval brackets 0.5 and lies
within [0, 1]. -/
theorem wilson_concrete_5_10 :
    (calculate_confidence_interval 5 10 0.95).1 < 1 / 2
      ∧ 1 / 2 < (calculate_confidence_interval 5 10 0.95).2
      ∧ 0 ≤ (calculate_confidence_interval 5 10 0.95).1
      ∧ (calculate_confidence_interval 5 10 0.95).2 ≤ 1 := by
  have hC : wilsonCenter 5 10 1.96 = 1 / 2 := by
    unfold wilsonCenter wilsonP wilsonDenominator
    norm_num
  have hMpos : 0 < wilsonMargin 5 10 1.96 := by
    unfold wilsonMargin wilsonP wilsonDenominator
    apply div_pos
    · apply mul_pos (by norm_num : (0:ℝ) < 1.96)
      apply Real.sqrt_pos.mpr
      norm_num
    · norm_num
  have hinterval : calculate_confidence_interval 5 10 0.95
      = (max 0 (wilsonCenter 5 10 1.96 - wilsonMargin 5 10 1.96),
         min 1 (wilsonCenter 5 10 1.96 + wilsonMargin 5 10 1.96)) := by
    unfold calculate_confidence_interval
    rw [if_neg (by norm_num), ciZ_default]
  rw [hinterval, hC]
  refine ⟨?_, ?_, ?_, ?_⟩
  · exact max_lt (by norm_num) (by linarith)
  · exact lt_min (by norm_num) (by linarith)
  · exact le_max_left 0 _
  · exact min_le_left 1 _

/-- C8: the confidence interval is the Wilson score interval with z = 1.96
(center, margin and [0,1]-clamping exactly as the spec's formula states);
for successes = 5, total = 10 it brackets 0.5 and lies within [0, 1]; and
for a fixed proportion the interval strictly narrows as the total grows. -/
theorem wilson_interval_properties :
    (∀ s t : ℕ, calculate_confidence_interval s t 0.95 = wilsonIntervalSpec s t)
      ∧ ((calculate_confidence_interval 5 10 0.95).1 < 1 / 2
        ∧ 1 / 2 < (calculate_confidence_interval 5 10 0.95).2
        ∧ 0 ≤ (calculate_confidence_interval 5 10 0.95).1
        ∧ (calculate_confidence_interval 5 10 0.95).2 ≤ 1)
      ∧ (∀ s₁ t₁ s₂ t₂ : ℕ, 0 < t₁ → t₁ < t₂ → s₁ ≤ t₁ → s₂ ≤ t₂ →
          s₁ * t₂ = s₂ * t₁ →
          (calculate_confidence_interval s₂ t₂ 0.95).2
              - (calculate_confidence_interval s₂ t₂ 0.95).1
            < (calculate_confidence_interval s₁ t₁ 0.95).2
              - (calculate_confidence_interval s₁ t₁ 0.95).1) := by
  refine ⟨wilson_matches_spec, wilson_concrete_5_10, ?_⟩
  intro s₁ t₁ s₂ t₂ ht₁ ht hs₁ hs₂ hp
  have ht₂ : 0 < t₂ := lt_trans ht₁ ht
  have hnc₁ := wilson_no_clamp s₁ t₁ ht₁ hs₁
  have hnc₂ := wilson_no_clamp s₂ t₂ ht₂ hs₂
  have e₁ : calculate_confidence_interval s₁ t₁ 0.95
      = (wilsonCenter s₁ t₁ 1.96 - wilsonMargin s₁ t₁ 1.96,
         wilsonCenter s₁ t₁ 1.96 + wilsonMargin s₁ t₁ 1.96) := by
    unfold calculate_confidence_interval
    rw [if_neg (Nat.pos_iff_ne_zero.mp ht₁), ciZ_default,
      max_eq_right hnc₁.1, min_eq_right hnc₁.2]
  have e₂ : calculate_confidence_interval s₂ t₂ 0.95
      = (wilsonCenter s₂ t₂ 1.96 - wilsonMargin s₂ t₂ 1.96,
         wilsonCenter s₂ t₂ 1.96 + wilsonMargin s₂ t₂ 1.96) := by
    unfold calculate_confidence_interval
    rw [if_neg (Nat.pos_iff_ne_zero.mp ht₂), ciZ_default,
      max_eq_right hnc₂.1, min_eq_right hnc₂.2]
  rw [e₁, e₂]
  have hM := wilsonMargin_strict_anti s₁ t₁ s₂ t₂ ht₁ ht hs₁ hs₂ hp
  dsimp only
  linarith

/-- Witness for C8's narrowing conjunct at (5, 10) versus (500, 1000). -/
theorem wilson_interval_properties_witness :
    (0 < 10 ∧ 10 < 1000 ∧ 5 ≤ 10 ∧ 500 ≤ 1000 ∧ 5 * 1000 = 500 * 10)
      ∧ ((calculate_confidence_interval 500 1000 0.95).2
            - (calculate_confidence_interval 500 1000 0.95).1
          < (calculate_confidence_interval 5 10 0.95).2
            - (calculate_confidence_interval 5 10 0.95).1) :=
  ⟨by norm_num,
    wilson_interval_properties.2.2 5 10 500 1000 (by norm_num) (by norm_num)
      (by norm_num) (by norm_num) (by norm_num)⟩
